import Mathlib

/-!
Verification of the Diet Plan Generator application (src/app.py).

The application is a single-file Streamlit app.  We give a shallow embedding
of its functional surface:

* the Goal Date Estimator (lines 36-40): pure arithmetic on the two weight
  values, with Python float arithmetic modelled exactly on rationals (all
  inputs used in concrete statements are exactly representable in binary
  floating point, and the involved operations are exact there), Python
  `int()` truncation modelled by `pyInt`, and dates modelled as integer day
  counts;
* the prompt template (lines 44-60): a Lean `String` built by the same
  concatenation as the Python f-string; numeric interpolation uses
  `toString` as the stand-in for Python `str` (the containment properties
  proved below do not depend on the renderer);
* the plan-generation flow (lines 43-75) and the startup key check
  (lines 7-13): modelled as a function from the environment and the
  response outcome to the list of user-visible events, in program order.

Streamlit widget behaviour (bounded numeric inputs, fixed-choice selectors)
is not part of the repository source; it is modelled from the spec where a
claim depends on it, as stated in the doc comments below.
-/

namespace DietApp

/-- Python `int()` applied to a (nonnegative or negative) rational:
truncation toward zero. -/
def pyInt (q : ℚ) : ℤ := if 0 ≤ q then ⌊q⌋ else ⌈q⌉

/-- src/app.py line 37: `weight_diff = abs(target_weight - current_weight)`. -/
def weight_diff (current_weight target_weight : ℚ) : ℚ :=
  |target_weight - current_weight|

/-- src/app.py line 38: `days_needed = int(weight_diff * 15)`. -/
def days_needed (current_weight target_weight : ℚ) : ℤ :=
  pyInt (weight_diff current_weight target_weight * 15)

/-- src/app.py line 39: `goal_date = datetime.today() + timedelta(days=days_needed)`,
with dates as integer day counts. -/
def goal_date (current_weight target_weight : ℚ) (today : ℤ) : ℤ :=
  today + days_needed current_weight target_weight

/-- The specification's version of the day estimate: `round(|target − current| × 15)`,
rounding to the nearest integer.  Used only to compare with `days_needed`. -/
def spec_days (current_weight target_weight : ℚ) : ℤ :=
  round (|target_weight - current_weight| * 15)

/-- The UserProfile snapshot captured by the form (src/app.py lines 21-31).
The three selectors hold one of their fixed option strings; the three
optional fields hold the raw (possibly empty) text. -/
structure UserProfile where
  age : ℤ
  height : ℤ
  current_weight : ℚ
  target_weight : ℚ
  goal : String
  diet_preference : String
  sugar_intake : String
  water_intake : ℚ
  event : String
  sports_interest : String
  past_issues : String
deriving DecidableEq

/-- Stand-in for Python `str` on ints (identical output on all integers). -/
def pyStrInt (n : ℤ) : String := toString n

/-- Stand-in for Python `str` on the float-valued fields, on the exact
rational model.  The prompt-containment theorems hold for any renderer. -/
def pyStrRat (q : ℚ) : String := toString q

/-- Python truthiness conditional used for the optional fields
(src/app.py lines 51-53): `x if x else 'None'`; the empty string is the
only falsy string. -/
def pyIfEmpty (s : String) : String := if s = "" then "None" else s

/-- The f-string prompt template, src/app.py lines 44-60, as the same
left-to-right concatenation of literal segments and interpolated values. -/
def prompt (p : UserProfile) : String :=
  "\n    Act as a certified nutritionist. Create a detailed " ++ p.diet_preference
  ++ " diet plan for:\n    - Age: " ++ pyStrInt p.age
  ++ " | Height: " ++ pyStrInt p.height
  ++ " cm\n    - Current Weight: " ++ pyStrRat p.current_weight
  ++ " kg | Target Weight: " ++ pyStrRat p.target_weight
  ++ " kg\n    - Goal: " ++ p.goal
  ++ "\n    - Sugar Intake: " ++ p.sugar_intake
  ++ "\n    - Water Intake: " ++ pyStrRat p.water_intake
  ++ "L per day\n    - Special Event: " ++ pyIfEmpty p.event
  ++ "\n    - Interested Sports: " ++ pyIfEmpty p.sports_interest
  ++ "\n    - Past Fitness Issues: " ++ pyIfEmpty p.past_issues
  ++ "\n    \n    The plan should include:\n    - A **weekly meal plan** with breakfast, lunch, dinner, and snacks.\n    - Approximate **calorie intake** per day.\n    - Recommended **exercise routines**.\n    - Additional **hydration and recovery tips**.\n    "

/-- The response object of the external call, as far as the code inspects
it: its truthiness, whether `hasattr(response, "text")` holds, and the
value of the textual field. -/
structure Response where
  truthy : Bool
  hasText : Bool
  text : String
deriving DecidableEq

/-- The user-visible events of one script run, in program order. -/
inductive Event where
  | configureApi (key : String)
  | renderForm
  | renderGoal (target_weight : ℚ) (date : ℤ)
  | externalCall (modelName promptText : String)
  | renderInfo (msg : String)
  | renderPlan (text : String)
  | renderError (msg : String)
  | stopApp
deriving DecidableEq

/-- src/app.py line 10. -/
def keyErrMsg : String :=
  "🚨 API key is missing! Please configure it in Streamlit secrets or environment variables."

/-- src/app.py line 68. -/
def successBanner : String := "✅ Here is your AI-generated diet plan:"

/-- src/app.py line 71. -/
def failMsg : String := "❌ Failed to generate a diet plan."

/-- src/app.py line 75: the fixed part of the error message before `str(e)`. -/
def errorMsgHead : String := "❌ Error generating diet plan: "

/-- src/app.py lines 67-71: `if response and hasattr(response, "text")`
renders the success banner and the text, else the fixed failure message. -/
def handleResponse (response : Response) : List Event :=
  if response.truthy && response.hasText then
    [Event.renderInfo successBanner, Event.renderPlan response.text]
  else
    [Event.renderError failMsg]

/-- src/app.py lines 62-75: one external call with the fixed model name and
the built prompt; on a response, `handleResponse`; on an exception `e`,
the single error message with `str(e)` appended (no retry, no partial
output). -/
def planEvents (p : UserProfile) (outcome : Except String Response) : List Event :=
  Event.externalCall "gemini-1.5-pro-latest" (prompt p) ::
    match outcome with
    | Except.ok response => handleResponse response
    | Except.error e => [Event.renderError (errorMsgHead ++ e)]

/-- src/app.py lines 36-40: the Calculate Goal Date handler renders one
success message carrying the target weight and the computed date. -/
def goalDateEvents (current_weight target_weight : ℚ) (today : ℤ) : List Event :=
  [Event.renderGoal target_weight (goal_date current_weight target_weight today)]

/-- src/app.py line 7: `st.secrets.get(...) or os.getenv(...)`; Python `or`
returns its second operand when the first is falsy (absent or empty). -/
def pyOrStr (a b : Option String) : Option String :=
  match a with
  | some s => if s = "" then b else some s
  | none => b

/-- The whole script run, src/app.py top to bottom: the key check
(lines 7-13) halts with an error before any UI when the key is falsy;
otherwise the API is configured, the form is rendered, and the two
button-guarded blocks run on their flags. -/
def appTrace (secrets env : Option String) (p : UserProfile)
    (calcClicked submitted : Bool) (today : ℤ)
    (outcome : Except String Response) : List Event :=
  match pyOrStr secrets env with
  | none => [Event.renderError keyErrMsg, Event.stopApp]
  | some k =>
      if k = "" then [Event.renderError keyErrMsg, Event.stopApp]
      else
        Event.configureApi k :: Event.renderForm ::
          ((if calcClicked then
              goalDateEvents p.current_weight p.target_weight today else []) ++
           (if submitted then planEvents p outcome else []))

/-- Modelled from the spec: the missing widget semantics of
`st.number_input(min_value, max_value)` (the widgets configured in
src/app.py lines 21-28 are Streamlit library code, not in this
repository).  Per the spec, out-of-range entry is prevented by the input
widget at the boundary, i.e. the held value is the requested value clamped
into [min_value, max_value]. -/
def number_input (min_value max_value v : ℚ) : ℚ :=
  max min_value (min max_value v)

/-- Modelled from the spec: the integer-valued `st.number_input`, same
clamping behaviour on integers. -/
def number_input_int (min_value max_value v : ℤ) : ℤ :=
  max min_value (min max_value v)

/-- Modelled from the spec: `st.selectbox` returns one of its fixed option
strings. -/
def selectbox (options : List String) (choice : Fin options.length) : String :=
  options.get choice

def goalOptions : List String := ["Lose Weight", "Gain Weight", "Build Muscle"]

def dietOptions : List String :=
  ["Vegetarian", "Non-Vegetarian", "Vegan", "Keto", "Paleo"]

def sugarOptions : List String := ["Rarely", "Sometimes", "Often", "Daily"]

/-- The form submission, src/app.py lines 20-33: every numeric field passes
through its bounded widget, every selector holds one of its options, the
free-text fields are taken as typed. -/
def submitProfile (rawAge rawHeight : ℤ) (rawCurrent rawTarget rawWater : ℚ)
    (goalChoice : Fin goalOptions.length) (dietChoice : Fin dietOptions.length)
    (sugarChoice : Fin sugarOptions.length)
    (event sports_interest past_issues : String) : UserProfile where
  age := number_input_int 10 100 rawAge
  height := number_input_int 100 250 rawHeight
  current_weight := number_input 30 200 rawCurrent
  target_weight := number_input 30 200 rawTarget
  goal := selectbox goalOptions goalChoice
  diet_preference := selectbox dietOptions dietChoice
  sugar_intake := selectbox sugarOptions sugarChoice
  water_intake := number_input (1/2) 5 rawWater
  event := event
  sports_interest := sports_interest
  past_issues := past_issues

/-- Substring as an explicit decomposition. -/
def containsStr (s t : String) : Prop := ∃ a b, s = a ++ (t ++ b)

theorem containsStr_self (t : String) : containsStr t t :=
  ⟨"", "", by simp⟩

theorem containsStr_appendL (a : String) {s t : String} (h : containsStr s t) :
    containsStr (a ++ s) t := by
  obtain ⟨x, y, hxy⟩ := h
  exact ⟨a ++ x, y, by rw [hxy, String.append_assoc]⟩

theorem containsStr_appendR (b : String) {s t : String} (h : containsStr s t) :
    containsStr (s ++ b) t := by
  obtain ⟨x, y, hxy⟩ := h
  exact ⟨x, y ++ b, by rw [hxy]; simp [String.append_assoc]⟩

/-- A containment target that starts inside a literal segment: split the
literal at the start of the target. -/
theorem containsStr_split (P lit v pre lab : String) (hsplit : lit = pre ++ lab) :
    containsStr ((P ++ lit) ++ v) (lab ++ v) :=
  ⟨P ++ pre, "", by rw [hsplit]; simp [String.append_assoc]⟩

/-- `int()` agrees with the floor on nonnegative arguments. -/
theorem pyInt_of_nonneg {q : ℚ} (h : 0 ≤ q) : pyInt q = ⌊q⌋ := by
  rw [pyInt, if_pos h]

/-- The day estimate of the code is the floor of the scaled absolute
difference. -/
theorem days_needed_eq_floor (c t : ℚ) : days_needed c t = ⌊|t - c| * 15⌋ := by
  rw [days_needed, weight_diff, pyInt_of_nonneg]
  positivity

theorem days_needed_nonneg (c t : ℚ) : 0 ≤ days_needed c t := by
  rw [days_needed_eq_floor]
  exact Int.floor_nonneg.mpr (by positivity)

theorem days_needed_80_75 : days_needed 80 75 = 75 := by
  rw [days_needed_eq_floor]
  have h : |(75 : ℚ) - 80| * 15 = 75 := by
    rw [show (75 : ℚ) - 80 = -5 by norm_num, abs_neg]
    norm_num
  rw [h]
  rw [show ((75 : ℚ) = ((75 : ℤ) : ℚ)) by norm_num]
  exact Int.floor_intCast 75

theorem days_needed_quarter : days_needed 80 (321/4) = 3 := by
  rw [days_needed_eq_floor]
  have h : |(321/4 : ℚ) - 80| * 15 = 15/4 := by
    rw [show (321/4 : ℚ) - 80 = 1/4 by norm_num, abs_of_nonneg (by norm_num)]
    norm_num
  rw [h, Int.floor_eq_iff]
  constructor <;> norm_num

theorem spec_days_quarter : spec_days 80 (321/4) = 4 := by
  rw [spec_days]
  have h : |(321/4 : ℚ) - 80| * 15 = 15/4 := by
    rw [show (321/4 : ℚ) - 80 = 1/4 by norm_num, abs_of_nonneg (by norm_num)]
    norm_num
  rw [h, round_eq, Int.floor_eq_iff]
  constructor <;> norm_num

theorem clamp_bounds {α : Type} [LinearOrder α] {lo hi : α} (v : α)
    (h : lo ≤ hi) : lo ≤ max lo (min hi v) ∧ max lo (min hi v) ≤ hi :=
  ⟨le_max_left lo (min hi v), max_le h (le_trans (min_le_left hi v) (le_refl hi))⟩

/-- Claim C1 (amended): for every pair of weights, the Goal Date Estimator
computes days = int(|target − current| × 15), i.e. the scaled absolute
difference truncated toward zero (equivalently its floor, the argument
being nonnegative) — not rounded to the nearest integer. -/
theorem c1_days_truncated (current_weight target_weight : ℚ) :
    days_needed current_weight target_weight =
      ⌊|target_weight - current_weight| * 15⌋ :=
  days_needed_eq_floor current_weight target_weight

/-- Claim C1 counterexample: at current weight 80 kg and target weight
80.25 kg the code computes int(0.25 × 15) = int(3.75) = 3, while
round(0.25 × 15) = 4; both operands are exactly representable binary
floats and the float arithmetic is exact here, so the rational model agrees
with the program. -/
theorem c1_counterexample :
    days_needed 80 (321/4) = 3 ∧ spec_days 80 (321/4) = 4 ∧
      days_needed 80 (321/4) ≠ spec_days 80 (321/4) := by
  refine ⟨days_needed_quarter, spec_days_quarter, ?_⟩
  rw [days_needed_quarter, spec_days_quarter]
  decide

/-- Claim C2: for every UserProfile snapshot, the generated prompt contains
every field value verbatim (age, height, current weight, target weight,
goal, diet preference, sugar intake, water intake), and for each optional
field the prompt contains, in that field's position, the literal text
"None" when the field is empty and the field's value verbatim otherwise. -/
theorem c2_prompt_contains_fields (p : UserProfile) :
    containsStr (prompt p) (pyStrInt p.age) ∧
    containsStr (prompt p) (pyStrInt p.height) ∧
    containsStr (prompt p) (pyStrRat p.current_weight) ∧
    containsStr (prompt p) (pyStrRat p.target_weight) ∧
    containsStr (prompt p) p.goal ∧
    containsStr (prompt p) p.diet_preference ∧
    containsStr (prompt p) p.sugar_intake ∧
    containsStr (prompt p) (pyStrRat p.water_intake) ∧
    containsStr (prompt p)
      ("- Special Event: " ++ (if p.event = "" then "None" else p.event)) ∧
    containsStr (prompt p)
      ("- Interested Sports: " ++
        (if p.sports_interest = "" then "None" else p.sports_interest)) ∧
    containsStr (prompt p)
      ("- Past Fitness Issues: " ++
        (if p.past_issues = "" then "None" else p.past_issues)) := by
  unfold prompt
  refine ⟨?_, ?_, ?_, ?_, ?_, ?_, ?_, ?_, ?_, ?_, ?_⟩
  · exact containsStr_appendR _ (containsStr_appendR _ (containsStr_appendR _
      (containsStr_appendR _ (containsStr_appendR _ (containsStr_appendR _
      (containsStr_appendR _ (containsStr_appendR _ (containsStr_appendR _
      (containsStr_appendR _ (containsStr_appendR _ (containsStr_appendR _
      (containsStr_appendR _ (containsStr_appendR _ (containsStr_appendR _
      (containsStr_appendR _ (containsStr_appendR _ (containsStr_appendR _
      (containsStr_appendR _ (containsStr_appendL _ (containsStr_self
      (pyStrInt p.age)))))))))))))))))))))
  · exact containsStr_appendR _ (containsStr_appendR _ (containsStr_appendR _
      (containsStr_appendR _ (containsStr_appendR _ (containsStr_appendR _
      (containsStr_appendR _ (containsStr_appendR _ (containsStr_appendR _
      (containsStr_appendR _ (containsStr_appendR _ (containsStr_appendR _
      (containsStr_appendR _ (containsStr_appendR _ (containsStr_appendR _
      (containsStr_appendR _ (containsStr_appendR _ (containsStr_appendL _ (containsStr_self
      (pyStrInt p.height)))))))))))))))))))
  · exact containsStr_appendR _ (containsStr_appendR _ (containsStr_appendR _
      (containsStr_appendR _ (containsStr_appendR _ (containsStr_appendR _
      (containsStr_appendR _ (containsStr_appendR _ (containsStr_appendR _
      (containsStr_appendR _ (containsStr_appendR _ (containsStr_appendR _
      (containsStr_appendR _ (containsStr_appendR _ (containsStr_appendR _
      (containsStr_appendL _ (containsStr_self (pyStrRat p.current_weight)))))))))))))))))
  · exact containsStr_appendR _ (containsStr_appendR _ (containsStr_appendR _
      (containsStr_appendR _ (containsStr_appendR _ (containsStr_appendR _
      (containsStr_appendR _ (containsStr_appendR _ (containsStr_appendR _
      (containsStr_appendR _ (containsStr_appendR _ (containsStr_appendR _
      (containsStr_appendR _ (containsStr_appendL _ (containsStr_self
      (pyStrRat p.target_weight)))))))))))))))
  · exact containsStr_appendR _ (containsStr_appendR _ (containsStr_appendR _
      (containsStr_appendR _ (containsStr_appendR _ (containsStr_appendR _
      (containsStr_appendR _ (containsStr_appendR _ (containsStr_appendR _
      (containsStr_appendR _ (containsStr_appendR _ (containsStr_appendL _
      (containsStr_self p.goal))))))))))))
  · exact containsStr_appendR _ (containsStr_appendR _ (containsStr_appendR _
      (containsStr_appendR _ (containsStr_appendR _ (containsStr_appendR _
      (containsStr_appendR _ (containsStr_appendR _ (containsStr_appendR _
      (containsStr_appendR _ (containsStr_appendR _ (containsStr_appendR _
      (containsStr_appendR _ (containsStr_appendR _ (containsStr_appendR _
      (containsStr_appendR _ (containsStr_appendR _ (containsStr_appendR _
      (containsStr_appendR _ (containsStr_appendR _ (containsStr_appendR _
      (containsStr_appendL _ (containsStr_self p.diet_preference))))))))))))))))))))))
  · exact containsStr_appendR _ (containsStr_appendR _ (containsStr_appendR _
      (containsStr_appendR _ (containsStr_appendR _ (containsStr_appendR _
      (containsStr_appendR _ (containsStr_appendR _ (containsStr_appendR _
      (containsStr_appendL _ (containsStr_self p.sugar_intake))))))))))
  · exact containsStr_appendR _ (containsStr_appendR _ (containsStr_appendR _
      (containsStr_appendR _ (containsStr_appendR _ (containsStr_appendR _
      (containsStr_appendR _ (containsStr_appendL _ (containsStr_self
      (pyStrRat p.water_intake)))))))))
  · refine containsStr_appendR _ (containsStr_appendR _ (containsStr_appendR _
      (containsStr_appendR _ (containsStr_appendR _ ?_))))
    show containsStr _ ("- Special Event: " ++ pyIfEmpty p.event)
    exact containsStr_split _ _ _ "L per day\n    " "- Special Event: " rfl
  · refine containsStr_appendR _ (containsStr_appendR _ (containsStr_appendR _ ?_))
    show containsStr _ ("- Interested Sports: " ++ pyIfEmpty p.sports_interest)
    exact containsStr_split _ _ _ "\n    " "- Interested Sports: " rfl
  · refine containsStr_appendR _ ?_
    show containsStr _ ("- Past Fitness Issues: " ++ pyIfEmpty p.past_issues)
    exact containsStr_split _ _ _ "\n    " "- Past Fitness Issues: " rfl

/-- Claim C3 counterexample: a falsy response object that does expose a
textual field is rendered as the fixed failure message, not as its text,
so "if the response has a textual field, exactly that text is rendered"
fails as stated. -/
theorem c3_counterexample :
    (Response.mk false true "plan").hasText = true ∧
    handleResponse (Response.mk false true "plan") = [Event.renderError failMsg] ∧
    handleResponse (Response.mk false true "plan") ≠
      [Event.renderInfo successBanner, Event.renderPlan "plan"] := by
  refine ⟨rfl, rfl, ?_⟩
  decide

/-- Claim C3 (amended): on the non-exception path, if the response is
truthy and has a textual field then exactly that text is rendered
(after the fixed success banner); otherwise — the field absent or the
response falsy — the fixed failure message is rendered; these are the only
two outcomes. -/
theorem c3_response_rendering (r : Response) :
    (r.truthy = true → r.hasText = true →
      handleResponse r = [Event.renderInfo successBanner, Event.renderPlan r.text]) ∧
    (r.truthy = false ∨ r.hasText = false →
      handleResponse r = [Event.renderError failMsg]) ∧
    (handleResponse r = [Event.renderInfo successBanner, Event.renderPlan r.text] ∨
      handleResponse r = [Event.renderError failMsg]) := by
  refine ⟨?_, ?_, ?_⟩
  · intro h1 h2
    rw [handleResponse, h1, h2]
    rfl
  · intro h
    rw [handleResponse]
    rcases h with h | h <;> rw [h] <;> simp
  · rw [handleResponse]
    cases hb : (r.truthy && r.hasText) <;> simp

/-- Witness for C3: a truthy response carrying text "x" renders exactly
that text. -/
theorem c3_response_rendering_witness :
    handleResponse (Response.mk true true "x") =
      [Event.renderInfo successBanner, Event.renderPlan "x"] :=
  (c3_response_rendering (Response.mk true true "x")).1 rfl rfl

/-- Claim C4: every exception e raised during the request/response cycle is
caught and the displayed message is the fixed head string with the
stringified exception appended; exactly one external call is made (no
retry) and no plan text is rendered. -/
theorem c4_exception_path (p : UserProfile) (e : String) :
    planEvents p (Except.error e) =
      [Event.externalCall "gemini-1.5-pro-latest" (prompt p),
       Event.renderError (errorMsgHead ++ e)] ∧
    (∀ t, Event.renderPlan t ∉ planEvents p (Except.error e)) ∧
    List.countP
      (fun ev => match ev with | Event.externalCall _ _ => true | _ => false)
      (planEvents p (Except.error e)) = 1 := by
  refine ⟨rfl, ?_, ?_⟩
  · intro t
    simp [planEvents]
  · simp [planEvents, List.countP_cons]

/-- Claim C5: when the API key is absent from both the secrets store and
the environment, the run is exactly one visible error followed by the
halt: the form is never rendered and no external call is ever attempted. -/
theorem c5_missing_key (p : UserProfile) (calcClicked submitted : Bool)
    (today : ℤ) (outcome : Except String Response) :
    appTrace none none p calcClicked submitted today outcome =
      [Event.renderError keyErrMsg, Event.stopApp] ∧
    Event.renderForm ∉ appTrace none none p calcClicked submitted today outcome ∧
    (∀ m pr, Event.externalCall m pr ∉
      appTrace none none p calcClicked submitted today outcome) := by
  refine ⟨rfl, ?_, ?_⟩
  · show Event.renderForm ∉ [Event.renderError keyErrMsg, Event.stopApp]
    simp
  · intro m pr
    show Event.externalCall m pr ∉ [Event.renderError keyErrMsg, Event.stopApp]
    simp

/-- Claim C6: for every pair of weights the Goal Date Estimator's goal date
is today plus the computed number of days; in particular for current
weight 80 and target 75 it is today plus 75 days. -/
theorem c6_goal_date (current_weight target_weight : ℚ) (today : ℤ) :
    goal_date current_weight target_weight today =
      today + days_needed current_weight target_weight ∧
    goal_date 80 75 today = today + 75 := by
  refine ⟨rfl, ?_⟩
  rw [goal_date, days_needed_80_75]

/-- Claim C7: the Goal Date Estimator is a pure deterministic projection of
its two weights and the current date: its run is exactly one success
message (so it never raises and renders no error), it performs no external
call, and equal inputs give equal outputs. -/
theorem c7_estimator_pure (current_weight target_weight : ℚ) (today : ℤ) :
    goalDateEvents current_weight target_weight today =
      [Event.renderGoal target_weight
        (goal_date current_weight target_weight today)] ∧
    (∀ m pr, Event.externalCall m pr ∉
      goalDateEvents current_weight target_weight today) ∧
    (∀ m, Event.renderError m ∉
      goalDateEvents current_weight target_weight today) ∧
    (∀ c2 t2 d2, current_weight = c2 → target_weight = t2 → today = d2 →
      goalDateEvents current_weight target_weight today =
        goalDateEvents c2 t2 d2) := by
  refine ⟨rfl, ?_, ?_, ?_⟩
  · intro m pr
    simp [goalDateEvents]
  · intro m
    simp [goalDateEvents]
  · intro c2 t2 d2 h1 h2 h3
    rw [h1, h2, h3]

/-- Witness for C7: the estimator run at current weight 80, target 75 and
day 0 is the single success event reporting day 75. -/
theorem c7_estimator_pure_witness :
    goalDateEvents 80 75 0 = [Event.renderGoal 75 75] ∧
    goalDateEvents 80 75 0 = goalDateEvents 80 75 0 := by
  have h := (c7_estimator_pure 80 75 0).1
  have hd := (c7_estimator_pure 80 75 0).2.2.2 80 75 0 rfl rfl rfl
  refine ⟨?_, hd⟩
  rw [h]
  rw [show goal_date 80 75 0 = 75 by rw [goal_date, days_needed_80_75]; decide]

/-- Claim C8: every numeric field of a submitted UserProfile lies within
the widget range constraints — age in [10,100], height in [100,250],
both weights in [30,200], water intake in [0.5,5] — whatever values were
requested at the widgets, so no out-of-range value reaches the prompt
builder or the estimator. -/
theorem c8_field_ranges (rawAge rawHeight : ℤ) (rawCurrent rawTarget rawWater : ℚ)
    (goalChoice : Fin goalOptions.length) (dietChoice : Fin dietOptions.length)
    (sugarChoice : Fin sugarOptions.length) (ev sp pa : String) :
    let p := submitProfile rawAge rawHeight rawCurrent rawTarget rawWater
      goalChoice dietChoice sugarChoice ev sp pa
    (10 ≤ p.age ∧ p.age ≤ 100) ∧ (100 ≤ p.height ∧ p.height ≤ 250) ∧
    (30 ≤ p.current_weight ∧ p.current_weight ≤ 200) ∧
    (30 ≤ p.target_weight ∧ p.target_weight ≤ 200) ∧
    (1/2 ≤ p.water_intake ∧ p.water_intake ≤ 5) := by
  refine ⟨?_, ?_, ?_, ?_, ?_⟩
  · exact clamp_bounds rawAge (by norm_num)
  · exact clamp_bounds rawHeight (by norm_num)
  · exact clamp_bounds rawCurrent (by norm_num)
  · exact clamp_bounds rawTarget (by norm_num)
  · exact clamp_bounds rawWater (by norm_num)

/-- Claim C9: the success branch requires the response to be truthy in
addition to having a text attribute: every falsy response yields the fixed
failure message even when it exposes a textual field, and every truthy
response with a text attribute has its text rendered, even the empty
string. -/
theorem c9_truthiness_required (r : Response) :
    (r.truthy = false → handleResponse r = [Event.renderError failMsg]) ∧
    (r.truthy = true → r.hasText = true →
      handleResponse r = [Event.renderInfo successBanner, Event.renderPlan r.text]) := by
  constructor
  · intro h
    rw [handleResponse, h]
    simp
  · intro h1 h2
    rw [handleResponse, h1, h2]
    rfl

/-- Witness for C9: a falsy response exposing text "y" yields the failure
message, and a truthy response whose text is the empty string has that
empty text rendered. -/
theorem c9_truthiness_required_witness :
    handleResponse (Response.mk false true "y") = [Event.renderError failMsg] ∧
    handleResponse (Response.mk true true "") =
      [Event.renderInfo successBanner, Event.renderPlan ""] :=
  ⟨(c9_truthiness_required (Response.mk false true "y")).1 rfl,
   (c9_truthiness_required (Response.mk true true "")).2 rfl rfl⟩

/-- Claim C10: for every pair of weights the computed number of days is a
nonnegative integer (the absolute difference is taken before scaling), so
the reported goal date is never earlier than today. -/
theorem c10_goal_date_not_past (current_weight target_weight : ℚ) (today : ℤ) :
    0 ≤ days_needed current_weight target_weight ∧
    today ≤ goal_date current_weight target_weight today := by
  refine ⟨days_needed_nonneg current_weight target_weight, ?_⟩
  rw [goal_date]
  exact le_add_of_nonneg_right (days_needed_nonneg current_weight target_weight)

end DietApp
